/-
Verification development for the JaeOS nucleus (Basic-ARM-OS).

Shallow embedding of the phase-1 data structures (PCB pool / process
queues, Active Semaphore List) and of the phase-2 handlers (syscall
services, interrupt handlers, scheduler), translated from
src/phase1/pcb.c, src/phase1/asl.c, src/phase2/exceptions.c,
src/phase2/interrupts.c, src/phase2/scheduler.c and src/h/const.h.

Modelling conventions:
* C pointers into the PCB table and SEMD table are modelled as indices
  (`Nat`), with `Option Nat` for nullable pointers (`none` = NULL).
* The circular doubly-linked process queue identified by its tail
  pointer is modelled by its abstract list of elements, head first:
  insertProcQ appends at the tail, removeProcQ pops the head, outProcQ
  removes the requested element wherever it is.  These are exactly the
  observable semantics of the pointer manipulations in pcb.c.
* C `int` memory holding semaphores is an association list from
  addresses (`Nat`) to values (`Int`); the kernel array
  g_lotOfSemaphores[49] lives at addresses SEMBASE .. SEMBASE+48,
  mirroring `&g_lotOfSemaphores[i]` pointer arithmetic.
* Dereferencing a NULL pointer (undefined behaviour in the C source) is
  made explicit: operations return `CRes.nullDeref` / an
  `Outcome.nullDeref` carrying the machine state at the faulting access.
* LDST / PANIC / HALT / WAIT and `scheduler()` never return in the
  source; handlers therefore return an `Outcome` describing which of
  these exits was taken and with what kernel state.
-/
import Mathlib

namespace JaeOS

/-! ## Constants, from src/h/const.h -/

def MAXPROC : Nat := 20
def QUANTUM : Int := 5000
def INTERVAL : Int := 100000
def CLOCKINDEX : Nat := 48
def LASTSEMINDEX : Nat := 48
def TOTALDEVICES : Nat := 8
def DEVICEOFFSET : Nat := 3
def DEVICEREADY : Nat := 1
def ACK : Nat := 1
/-- From const.h line 123: `#define ISOLATEREADY 0x0000000F  // 11111111 in binary`.
The value is 0xF (four set bits) although the comment says eight. -/
def ISOLATEREADY : Nat := 0xF
def RECEIVING : Bool := true
def TRANSMITTING : Bool := false
def SYSMODE : Nat := 0x1F
def ALLOFF : Nat := 0
def INTSENABLED : Nat := 0xFFFFFF3F
def SUCCESS : Nat := 0
/-- FAILURE is -1 in const.h; stored into the unsigned `a1` field it wraps
to 2^32 - 1. -/
def FAILUREWORD : Nat := 2 ^ 32 - 1

/-- Base address of the kernel array `g_lotOfSemaphores[49]`; entry i is
at address SEMBASE + i (int-pointer arithmetic abstracted to unit
stride).  User semaphores live at addresses outside
[SEMBASE, SEMBASE+48]. -/
def SEMBASE : Nat := 1000

/-- Address of the pseudo-clock semaphore `g_lotOfSemaphores[CLOCKINDEX]`. -/
def clockAddr : Nat := SEMBASE + CLOCKINDEX

/-! ## Processor state (state_t, src/h/types.h) -/

structure MState where
  a1 : Nat
  a2 : Nat
  a3 : Nat
  a4 : Nat
  v1 : Nat
  v2 : Nat
  v3 : Nat
  v4 : Nat
  v5 : Nat
  v6 : Nat
  sl : Nat
  fp : Nat
  ip : Nat
  sp : Nat
  lr : Nat
  pc : Nat
  cpsr : Nat
  cp15Control : Nat
  cp15EntryHi : Nat
  cp15Cause : Nat
  todHi : Nat
  todLow : Nat
deriving DecidableEq, Repr

/-- copyState (exceptions.c lines 80-103): field-by-field copy of every
register into the destination, i.e. the destination becomes the origin. -/
def copyState (origin : MState) : MState :=
  { a1 := origin.a1, a2 := origin.a2, a3 := origin.a3, a4 := origin.a4,
    v1 := origin.v1, v2 := origin.v2, v3 := origin.v3, v4 := origin.v4,
    v5 := origin.v5, v6 := origin.v6, sl := origin.sl, fp := origin.fp,
    ip := origin.ip, sp := origin.sp, lr := origin.lr, pc := origin.pc,
    cpsr := origin.cpsr, cp15Control := origin.cp15Control,
    cp15EntryHi := origin.cp15EntryHi, cp15Cause := origin.cp15Cause,
    todHi := origin.todHi, todLow := origin.todLow }

def mst0 : MState :=
  { a1 := 0, a2 := 0, a3 := 0, a4 := 0, v1 := 0, v2 := 0, v3 := 0,
    v4 := 0, v5 := 0, v6 := 0, sl := 0, fp := 0, ip := 0, sp := 0,
    lr := 0, pc := 0, cpsr := 0, cp15Control := 0, cp15EntryHi := 0,
    cp15Cause := 0, todHi := 0, todLow := 0 }

/-! ## PCB (pcb_t, src/h/types.h) -/

/-- Process control block.  `stateArray` holds the three
(old-area address, new-area address) pairs for trap classes
TLB / PGM / SYS, as raw addresses (`none` = NULL). -/
structure Pcb where
  p_next : Option Nat
  p_prev : Option Nat
  p_prnt : Option Nat
  p_child : Option Nat
  p_nextSib : Option Nat
  p_prevSib : Option Nat
  p_s : MState
  p_time : Int
  p_semAdd : Option Nat
  stateArray :
    (Option Nat × Option Nat) × (Option Nat × Option Nat) × (Option Nat × Option Nat)
deriving DecidableEq, Repr

def pcb0 : Pcb :=
  { p_next := none, p_prev := none, p_prnt := none, p_child := none,
    p_nextSib := none, p_prevSib := none, p_s := mst0, p_time := 0,
    p_semAdd := none,
    stateArray := ((none, none), (none, none), (none, none)) }

/-! ## Process queues (pcb.c)

The C queue is a circular doubly-linked list named by its tail pointer
(NULL = empty, head = tail->next).  We model a queue by its list of
elements, head first. -/

def mkEmptyProcQ {α : Type} : List α := []

def emptyProcQ {α : Type} (q : List α) : Bool := q.isEmpty

def headProcQ {α : Type} (q : List α) : Option α := q.head?

/-- insertProcQ appends at the tail of the queue. -/
def insertProcQ {α : Type} (q : List α) (p : α) : List α := q ++ [p]

/-- removeProcQ removes and returns the head (NULL if empty). -/
def removeProcQ {α : Type} (q : List α) : Option α × List α :=
  match q with
  | [] => (none, [])
  | h :: t => (some h, t)

/-- outProcQ removes a given element from anywhere in the queue,
returning NULL when it is not a member. -/
def outProcQ (q : List Nat) (p : Nat) : Option Nat × List Nat :=
  if p ∈ q then (some p, q.erase p) else (none, q)

/-! ## PCB free pool (pcb.c lines 56-87)

The pool is itself a process queue headed by pcbList_h; freePcb inserts
at the tail and allocPcb removes the head. -/

/-- allocPcb (pcb.c lines 56-74): NULL if the pool is empty, otherwise
the head element with the six queue/tree links reset to NULL and
`p_time` reset to 0.  The source resets no other field: `p_semAdd`,
`p_s` and the three `stateArray` handler slots keep whatever the
previous owner left in them. -/
def allocPcb (pool : List Pcb) : Option (Pcb × List Pcb) :=
  match pool with
  | [] => none
  | p :: rest =>
    some ({ p with p_next := none, p_prev := none, p_prnt := none,
                   p_child := none, p_nextSib := none, p_prevSib := none,
                   p_time := 0 }, rest)

/-- freePcb (pcb.c lines 84-87): insertProcQ onto the free pool. -/
def freePcb (pool : List Pcb) (p : Pcb) : List Pcb := insertProcQ pool p

/-! ## ASL (asl.c) -/

/-- Result of a C computation that may hit undefined behaviour:
`nullDeref` marks a dereference of a NULL pointer, `noFuel` marks
exhaustion of the step bound (only reachable on cyclic pointer
structures, which never arise below). -/
inductive CRes (α : Type) where
  | ok : α → CRes α
  | nullDeref : CRes α
  | noFuel : CRes α
deriving DecidableEq, Repr

/-- Semaphore descriptor (asl.c lines 31-35).  `s_semAdd` is the key
(the C semaphore address, with NULL = 0); `s_procQ` is the blocked
process queue (PCB indices, head first). -/
structure Semd where
  s_next : Option Nat
  s_semAdd : Nat
  s_procQ : List Nat
deriving DecidableEq, Repr

def semd0 : Semd := { s_next := none, s_semAdd := 0, s_procQ := [] }

/-- ASL module state: the static semdTable, the active-list head
semd_h and the free-list head semdFree_h. -/
structure Asl where
  table : List Semd
  semd_h : Option Nat
  semdFree_h : Option Nat
deriving DecidableEq, Repr

def Asl.node (st : Asl) (i : Nat) : Semd := st.table.getD i semd0

def Asl.setNode (st : Asl) (i : Nat) (s : Semd) : Asl :=
  { st with table := st.table.set i s }

/-- freeSemd (asl.c lines 286-297): push a descriptor onto the free
list. -/
def freeSemd (st : Asl) (i : Nat) : Asl :=
  match st.semdFree_h with
  | none =>
    let st1 := { st with semdFree_h := some i }
    st1.setNode i { st1.node i with s_next := none }
  | some _ =>
    let st1 := st.setNode i { st.node i with s_next := st.semdFree_h }
    { st1 with semdFree_h := some i }

/-- allocateSemd (asl.c lines 306-327): pop the head of the free list
and clear its fields (s_next, s_semAdd, s_procQ all NULL). -/
def allocateSemd (st : Asl) : Option (Nat × Asl) :=
  match st.semdFree_h with
  | none => none
  | some h =>
    let st1 :=
      match (st.node h).s_next with
      | none => { st with semdFree_h := none }
      | some nxt =>
        let st' := { st with semdFree_h := some nxt }
        st'.setNode h { st'.node h with s_next := none }
    some (h, st1.setNode h { s_next := none, s_semAdd := 0, s_procQ := [] })

/-- initASL (asl.c lines 68-91).  All MAXPROC+2 = 22 descriptors of the
zero-initialised static table are pushed onto the free list; the two
dummy nodes are then allocated by hand.  Note that the source sets
`topDummyNode->s_next = NULL` and never links it to `bottomDummyNode`:
the active list ends up holding only the top dummy, whose successor is
NULL, and the bottom dummy (key 0xFFFFFF) is leaked. -/
def initASL : Asl :=
  let st0 : Asl :=
    { table := List.replicate (MAXPROC + 2) semd0, semd_h := none, semdFree_h := none }
  let st1 := (List.range (MAXPROC + 2)).foldl (fun st i => freeSemd st i) st0
  match allocateSemd st1 with
  | none => st1
  | some (top, st2) =>
    let st3 := st2.setNode top { st2.node top with s_next := none, s_semAdd := 0 }
    match allocateSemd st3 with
    | none => st3
    | some (bottom, st4) =>
      let st5 := st4.setNode bottom { st4.node bottom with s_next := none, s_semAdd := 0xFFFFFF }
      { st5 with semd_h := some top }

/-- Loop of findPrevSemd (asl.c line 273):
`while ((currentSemd->s_next->s_semAdd < semAdd) && (currentSemd->s_next != NULL))`.
The successor is dereferenced BEFORE the NULL test, so reaching a node
whose s_next is NULL is a NULL dereference. -/
def findPrevLoop (t : List Semd) (semAdd : Nat) : Nat → Nat → CRes Nat
  | 0, _ => CRes.noFuel
  | fuel + 1, cur =>
    match (t.getD cur semd0).s_next with
    | none => CRes.nullDeref
    | some nxt =>
      if (t.getD nxt semd0).s_semAdd < semAdd then
        findPrevLoop t semAdd fuel nxt
      else
        CRes.ok cur

/-- findPrevSemd (asl.c lines 267-277), starting from semd_h. -/
def findPrevSemd (st : Asl) (semAdd : Nat) : CRes Nat :=
  match st.semd_h with
  | none => CRes.nullDeref
  | some h => findPrevLoop st.table semAdd (st.table.length + 1) h

/-- Unsplice the active node `nIdx` (successor of `prev`) from the ASL
and return it to the free list (the common tail of removeBlocked and
outBlocked, asl.c lines 182-187 / 222-227). -/
def unspliceFree (st : Asl) (prev nIdx : Nat) : Asl :=
  let st1 := st.setNode prev { st.node prev with s_next := (st.node nIdx).s_next }
  let st2 := st1.setNode nIdx { st1.node nIdx with s_next := none }
  freeSemd st2 nIdx

/-- insertBlocked (asl.c lines 113-151).  Returns TRUE (pool exhausted)
or FALSE together with the updated ASL.  The C function also sets
`p->p_semAdd = semAdd` in both non-error cases; the kernel-level wrapper
below performs that PCB update. -/
def insertBlocked (st : Asl) (semAdd : Nat) (p : Nat) : CRes (Bool × Asl) :=
  match findPrevSemd st semAdd with
  | CRes.nullDeref => CRes.nullDeref
  | CRes.noFuel => CRes.noFuel
  | CRes.ok prev =>
    let inactive :=
      match (st.node prev).s_next with
      | none => true
      | some nIdx => (st.node nIdx).s_semAdd ≠ semAdd
    if inactive then
      match allocateSemd st with
      | none => CRes.ok (true, st)
      | some (newIdx, st1) =>
        let st2 := st1.setNode newIdx
          { s_next := (st1.node prev).s_next, s_semAdd := semAdd,
            s_procQ := insertProcQ mkEmptyProcQ p }
        let st3 := st2.setNode prev { st2.node prev with s_next := some newIdx }
        CRes.ok (false, st3)
    else
      match (st.node prev).s_next with
      | none => CRes.nullDeref
      | some nIdx =>
        let nd := st.node nIdx
        CRes.ok (false, st.setNode nIdx { nd with s_procQ := insertProcQ nd.s_procQ p })

/-- removeBlocked (asl.c lines 167-191).  NULL when no descriptor with
this key is active; otherwise pops the head of the descriptor's queue,
unsplicing and freeing the descriptor when the queue becomes empty.
The guard on line 172 dereferences `prevSemd->s_next` before its NULL
test, exactly like findPrevSemd. -/
def removeBlocked (st : Asl) (semAdd : Nat) : CRes (Option Nat × Asl) :=
  match findPrevSemd st semAdd with
  | CRes.nullDeref => CRes.nullDeref
  | CRes.noFuel => CRes.noFuel
  | CRes.ok prev =>
    match (st.node prev).s_next with
    | none => CRes.nullDeref
    | some nIdx =>
      let nd := st.node nIdx
      if nd.s_semAdd ≠ semAdd then
        CRes.ok (none, st)
      else
        let (ret, q') := removeProcQ nd.s_procQ
        let st1 := st.setNode nIdx { nd with s_procQ := q' }
        if emptyProcQ q' then
          CRes.ok (ret, unspliceFree st1 prev nIdx)
        else
          CRes.ok (ret, st1)

/-- outBlocked (asl.c lines 204-231).  `pSem` is the value the C code
reads from `p->p_semAdd`. -/
def outBlocked (st : Asl) (pSem : Nat) (p : Nat) : CRes (Option Nat × Asl) :=
  match findPrevSemd st pSem with
  | CRes.nullDeref => CRes.nullDeref
  | CRes.noFuel => CRes.noFuel
  | CRes.ok prev =>
    match (st.node prev).s_next with
    | none => CRes.nullDeref
    | some nIdx =>
      let nd := st.node nIdx
      if nd.s_semAdd ≠ pSem then
        CRes.ok (none, st)
      else
        match outProcQ nd.s_procQ p with
        | (none, _) => CRes.ok (none, st)
        | (some ret, q') =>
          let st1 := st.setNode nIdx { nd with s_procQ := q' }
          if emptyProcQ q' then
            CRes.ok (some ret, unspliceFree st1 prev nIdx)
          else
            CRes.ok (some ret, st1)

/-- headBlocked (asl.c lines 243-255). -/
def headBlocked (st : Asl) (semAdd : Nat) : CRes (Option Nat) :=
  match findPrevSemd st semAdd with
  | CRes.nullDeref => CRes.nullDeref
  | CRes.noFuel => CRes.noFuel
  | CRes.ok prev =>
    match (st.node prev).s_next with
    | none => CRes.nullDeref
    | some nIdx =>
      let nd := st.node nIdx
      if nd.s_semAdd ≠ semAdd then
        CRes.ok none
      else
        CRes.ok (headProcQ nd.s_procQ)

/-! ## Kernel global state (initial.c lines 51-66) -/

/-- The phase-2 globals.  `mem` is the int memory seen through C
pointers (semaphore cells); `pcbs` is the PCB table (indices are the
modelled pcb_t pointers); `freePcbs` is pcbList_h as a queue of
indices; `timer` records the last setTIMER value. -/
structure Kernel where
  procCount : Int
  softBlockCount : Int
  startTOD : Int
  endTOD : Int
  accTime : Int
  endOfInterval : Int
  timer : Int
  currentProc : Option Nat
  readyQueue : List Nat
  pcbs : List Pcb
  freePcbs : List Nat
  mem : List (Nat × Int)
  deviceStatus : List Nat
  asl : Asl
deriving DecidableEq, Repr

def memGet (m : List (Nat × Int)) (a : Nat) : Int :=
  (((m.find? (fun e => e.1 = a)).map Prod.snd).getD 0)

def memSet (m : List (Nat × Int)) (a : Nat) (v : Int) : List (Nat × Int) :=
  (a, v) :: m

def pcbGet (k : Kernel) (i : Nat) : Pcb := k.pcbs.getD i pcb0

def pcbSet (k : Kernel) (i : Nat) (p : Pcb) : Kernel :=
  { k with pcbs := k.pcbs.set i p }

/-- How a handler invocation ends.  LDST, PANIC, HALT, WAIT and
`scheduler()` never return in the source, so every handler is a total
function into this type.  `resume k` is `loadState()` (LDST on
currentProc's state) in kernel state `k`; `schedule k` means control
passed to `scheduler()` with state `k`; `nullDeref k` marks undefined
behaviour (NULL pointer dereference) reached with state `k`. -/
inductive Outcome where
  | resume : Kernel → Outcome
  | schedule : Kernel → Outcome
  | panic : Outcome
  | nullDeref : Kernel → Outcome
  | noFuel : Outcome
deriving DecidableEq, Repr

def isResume : Outcome → Bool
  | Outcome.resume _ => true
  | _ => false

def isSchedule : Outcome → Bool
  | Outcome.schedule _ => true
  | _ => false

def isNullDerefO : Outcome → Bool
  | Outcome.nullDeref _ => true
  | _ => false

/-- The kernel state carried by a resume / schedule / nullDeref
outcome. -/
def outKernel : Outcome → Option Kernel
  | Outcome.resume k => some k
  | Outcome.schedule k => some k
  | Outcome.nullDeref k => some k
  | _ => none

/-! ## Tree operations (pcb.c lines 280-391), at kernel level -/

def emptyChildK (k : Kernel) (p : Nat) : Bool := (pcbGet k p).p_child = none

/-- insertChild (pcb.c lines 292-311). -/
def insertChildK (k : Kernel) (prnt p : Nat) : Kernel :=
  let k1 :=
    if emptyChildK k prnt then
      pcbSet k p { pcbGet k p with p_prevSib := none }
    else
      let fc := (pcbGet k prnt).p_child.getD 0
      let k' := pcbSet k fc { pcbGet k fc with p_nextSib := some p }
      pcbSet k' p { pcbGet k' p with p_prevSib := some fc }
  let k2 := pcbSet k1 p { pcbGet k1 p with p_nextSib := none }
  let k3 := pcbSet k2 prnt { pcbGet k2 prnt with p_child := some p }
  pcbSet k3 p { pcbGet k3 p with p_prnt := some prnt }

/-- removeChild (pcb.c lines 323-350). -/
def removeChildK (k : Kernel) (prnt : Nat) : Option Nat × Kernel :=
  if emptyChildK k prnt then
    (none, k)
  else
    let fc := (pcbGet k prnt).p_child.getD 0
    if (pcbGet k fc).p_prevSib = none then
      let k1 := pcbSet k fc { pcbGet k fc with p_prnt := none }
      let k2 := pcbSet k1 prnt { pcbGet k1 prnt with p_child := none }
      (some fc, k2)
    else
      let ps := (pcbGet k fc).p_prevSib.getD 0
      let k1 := pcbSet k prnt { pcbGet k prnt with p_child := some ps }
      let k2 := pcbSet k1 ps { pcbGet k1 ps with p_nextSib := none }
      let k3 := pcbSet k2 fc { pcbGet k2 fc with p_prevSib := none, p_prnt := none }
      (some fc, k3)

/-- outChild (pcb.c lines 364-391).  In case 2b the source writes
through `p->p_nextSib`, which is a NULL dereference when p has no next
sibling (impossible on well-formed trees since p is then the parent's
first child, handled by case 2a). -/
def outChildK (k : Kernel) (p : Nat) : CRes (Option Nat × Kernel) :=
  match (pcbGet k p).p_prnt with
  | none => CRes.ok (none, k)
  | some prnt =>
    if (pcbGet k prnt).p_child = some p then
      CRes.ok (removeChildK k prnt)
    else
      match (pcbGet k p).p_nextSib with
      | none => CRes.nullDeref
      | some ns =>
        let k1 :=
          if (pcbGet k p).p_prevSib = none then
            pcbSet k ns { pcbGet k ns with p_prevSib := none }
          else
            let ps := (pcbGet k p).p_prevSib.getD 0
            let k' := pcbSet k ns { pcbGet k ns with p_prevSib := some ps }
            let k'' := pcbSet k' ps { pcbGet k' ps with p_nextSib := some ns }
            pcbSet k'' p { pcbGet k'' p with p_prevSib := none }
        let k2 := pcbSet k1 p { pcbGet k1 p with p_nextSib := none, p_prnt := none }
        CRes.ok (some p, k2)

/-! ## Kernel-level wrappers for pool and ASL operations -/

/-- allocPcb acting on the phase-2 globals (pool of indices). -/
def allocPcbK (k : Kernel) : Option Nat × Kernel :=
  match k.freePcbs with
  | [] => (none, k)
  | i :: rest =>
    let p := pcbGet k i
    let k1 := { k with freePcbs := rest }
    (some i, pcbSet k1 i
      { p with p_next := none, p_prev := none, p_prnt := none,
               p_child := none, p_nextSib := none, p_prevSib := none,
               p_time := 0 })

/-- freePcb acting on the phase-2 globals. -/
def freePcbK (k : Kernel) (i : Nat) : Kernel :=
  { k with freePcbs := insertProcQ k.freePcbs i }

/-- insertBlocked with its `p->p_semAdd = semAdd` side effect
(asl.c lines 133 and 149). -/
def insertBlockedK (k : Kernel) (semAdd : Nat) (p : Nat) : CRes (Bool × Kernel) :=
  match insertBlocked k.asl semAdd p with
  | CRes.nullDeref => CRes.nullDeref
  | CRes.noFuel => CRes.noFuel
  | CRes.ok (err, asl') =>
    if err then
      CRes.ok (true, { k with asl := asl' })
    else
      CRes.ok (false,
        pcbSet { k with asl := asl' } p { pcbGet k p with p_semAdd := some semAdd })

/-- updateTime (exceptions.c lines 129-138); `now` is getTODLO(). -/
def updateTime (k : Kernel) (now : Int) : Kernel :=
  let acc := now - k.startTOD
  let cur := k.currentProc.getD 0
  let k1 := pcbSet k cur { pcbGet k cur with p_time := (pcbGet k cur).p_time + acc }
  { k1 with endTOD := now, accTime := acc, startTOD := now }

/-! ## SYS-call services (exceptions.c) -/

/-- verhogen, SYS 3 (exceptions.c lines 294-310).  `semAdd` is the C
pointer from a2.  When the incremented value is still ≤ 0 but
removeBlocked finds nothing, the source calls PANIC(). -/
def verhogen (k : Kernel) (semAdd : Nat) : Outcome :=
  let v := memGet k.mem semAdd + 1
  let k1 := { k with mem := memSet k.mem semAdd v }
  if v ≤ 0 then
    match removeBlocked k1.asl semAdd with
    | CRes.nullDeref => Outcome.nullDeref k1
    | CRes.noFuel => Outcome.noFuel
    | CRes.ok (none, _) => Outcome.panic
    | CRes.ok (some sp, asl') =>
      let k2 := { k1 with asl := asl' }
      let k3 := pcbSet k2 sp { pcbGet k2 sp with p_semAdd := none }
      Outcome.resume { k3 with readyQueue := insertProcQ k3.readyQueue sp }
  else
    Outcome.resume k1

/-- getSemaphoreIndex (interrupts.c lines 297-306). -/
def getSemaphoreIndex (trueLineNumber devNum : Nat) : Nat :=
  TOTALDEVICES * (trueLineNumber - DEVICEOFFSET) + devNum

/-- waitIO, SYS 8 (exceptions.c lines 427-456); `now` is getTODLO().
On the non-blocking path the caller's a1 receives whatever is currently
stored in g_deviceStatus[semaphoreIndex]. -/
def waitIOSvc (k : Kernel) (now : Int) (intlNO dnum : Nat) (waitForTermRead : Bool) : Outcome :=
  let si0 := getSemaphoreIndex intlNO dnum
  let si := if intlNO = 7 ∧ waitForTermRead = false then si0 + TOTALDEVICES else si0
  let a := SEMBASE + si
  let v := memGet k.mem a - 1
  let k1 := { k with mem := memSet k.mem a v }
  if v < 0 then
    let k2 := updateTime k1 now
    match insertBlockedK k2 a (k2.currentProc.getD 0) with
    | CRes.nullDeref => Outcome.nullDeref k2
    | CRes.noFuel => Outcome.noFuel
    | CRes.ok (_, k3) =>
      Outcome.schedule
        { k3 with softBlockCount := k3.softBlockCount + 1, currentProc := none }
  else
    let cur := k1.currentProc.getD 0
    let k2 := pcbSet k1 cur
      { pcbGet k1 cur with
        p_s := { (pcbGet k1 cur).p_s with a1 := k1.deviceStatus.getD si 0 } }
    Outcome.resume k2

/-- The state commit at the top of SYSCallHandler (exceptions.c line
177): the current process's saved state becomes the contents of the
SYS old area, before any service runs. -/
def sysCallStateCommit (k : Kernel) (oldSYS : MState) : Kernel :=
  let cur := k.currentProc.getD 0
  pcbSet k cur { pcbGet k cur with p_s := copyState oldSYS }

/-- createProcess, SYS 1 (exceptions.c lines 249-267).  `parentState`
is the state template found at the address the caller passed in a2; the
function returns the final outcome together with the updated contents
of that template.  The completion status is written into the
template's a1 field (`parentState->a1 = SUCCESS/FAILURE`); the
caller's own saved state is not touched before loadState(). -/
def createProcess (k : Kernel) (parentState : MState) : Outcome × MState :=
  match allocPcbK k with
  | (some n, k1) =>
    let k2 := pcbSet k1 n { pcbGet k1 n with p_s := copyState parentState }
    let k3 := insertChildK k2 (k2.currentProc.getD 0) n
    let k4 := { k3 with readyQueue := insertProcQ k3.readyQueue n,
                        procCount := k3.procCount + 1 }
    (Outcome.resume k4, { parentState with a1 := SUCCESS })
  | (none, k1) =>
    (Outcome.resume k1, { parentState with a1 := FAILUREWORD })

/-! ## Interrupt handling (interrupts.c) -/

/-- The terminal transmit test of externalDeviceHandler (interrupts.c
line 335): `(interruptingDevice->term.recv_status & ISOLATEREADY) == DEVICEREADY`,
masking the low FOUR bits of the receive-status register. -/
def termIsTransmit (recvStatus : Nat) : Bool :=
  (recvStatus &&& ISOLATEREADY) == DEVICEREADY

/-- Stated from the spec's words for comparison (spec section 4.5 item
5): treat the interrupt as transmit exactly when the receive-status
register's low 8 bits equal the device-ready code. -/
def termIsTransmitSpec (recvStatus : Nat) : Bool :=
  (recvStatus &&& 0xFF) == DEVICEREADY

/-- Device register block (types.h lines 26-51): a union, so field i of
the disk/tape/printer view aliases field i of the terminal view.
d0 = status / recv_status, d1 = command / recv_command,
d2 = data0 / transm_status, d3 = data1 / transm_command. -/
structure DevReg where
  d0 : Nat
  d1 : Nat
  d2 : Nat
  d3 : Nat
deriving DecidableEq, Repr

/-- The resume-or-schedule tail shared by the interrupt handlers
(interrupts.c lines 396-404 and 216-223): if a process is current,
restart its accounting clock and LDST it, otherwise call the
scheduler. -/
def edhFinish (k : Kernel) (now : Int) : Outcome :=
  match k.currentProc with
  | some _ => Outcome.resume { k with startTOD := now }
  | none => Outcome.schedule k

/-- externalDeviceHandler (interrupts.c lines 323-405).  Returns the
outcome and the final contents of the interrupting device's register
block (the handler may write ACK into a command field).  For lines 3-6,
when the V result is ≤ 0 and removeBlocked returns NULL, the source
stores the status into g_deviceStatus and then executes
`signaledProc->p_semAdd = NULL` on the NULL pointer. -/
def externalDeviceHandler (k : Kernel) (dev : DevReg) (semaphoreIndex trueLineNumber : Nat)
    (now : Int) : Outcome × DevReg :=
  let isTr := trueLineNumber = 7 ∧ termIsTransmit dev.d0
  let terminalMode := if isTr then TRANSMITTING else RECEIVING
  let si := if isTr then semaphoreIndex + TOTALDEVICES else semaphoreIndex
  let a := SEMBASE + si
  let v := memGet k.mem a + 1
  let k1 := { k with mem := memSet k.mem a v }
  if v ≤ 0 then
    match removeBlocked k1.asl a with
    | CRes.nullDeref => (Outcome.nullDeref k1, dev)
    | CRes.noFuel => (Outcome.noFuel, dev)
    | CRes.ok (sp, asl') =>
      let k2 := { k1 with asl := asl' }
      if trueLineNumber ≠ 7 then
        match sp with
        | none =>
          let k3 := { k2 with deviceStatus := k2.deviceStatus.set si dev.d0 }
          (Outcome.nullDeref k3, dev)
        | some q =>
          let k3 := pcbSet k2 q { pcbGet k2 q with p_semAdd := none }
          let k4 := { k3 with softBlockCount := k3.softBlockCount - 1 }
          let dev1 := { dev with d1 := ACK }
          let k5 := pcbSet k4 q
            { pcbGet k4 q with p_s := { (pcbGet k4 q).p_s with a1 := dev1.d0 } }
          let k6 := { k5 with readyQueue := insertProcQ k5.readyQueue q }
          (edhFinish k6 now, dev1)
      else
        match sp with
        | none => (edhFinish k2 now, dev)
        | some q =>
          let k3 := pcbSet k2 q { pcbGet k2 q with p_semAdd := none }
          let k4 := { k3 with softBlockCount := k3.softBlockCount - 1 }
          if terminalMode = RECEIVING then
            let k5 := pcbSet k4 q
              { pcbGet k4 q with p_s := { (pcbGet k4 q).p_s with a1 := dev.d0 } }
            let dev1 := { dev with d1 := ACK }
            (edhFinish { k5 with readyQueue := insertProcQ k5.readyQueue q } now, dev1)
          else
            let k5 := pcbSet k4 q
              { pcbGet k4 q with p_s := { (pcbGet k4 q).p_s with a1 := dev.d2 } }
            let dev1 := { dev with d3 := ACK }
            (edhFinish { k5 with readyQueue := insertProcQ k5.readyQueue q } now, dev1)
  else
    (edhFinish k1 now, dev)

/-- The wake-everyone loop of intervalTimerHandler (interrupts.c lines
194-206): repeatedly removeBlocked on the pseudo-clock semaphore,
clearing p_semAdd, enqueueing on the ready queue and decrementing
softBlockCount, until removeBlocked returns NULL. -/
def wakeClockLoop (k : Kernel) : Nat → CRes Kernel
  | 0 => CRes.noFuel
  | fuel + 1 =>
    match removeBlocked k.asl clockAddr with
    | CRes.nullDeref => CRes.nullDeref
    | CRes.noFuel => CRes.noFuel
    | CRes.ok (none, asl') => CRes.ok { k with asl := asl' }
    | CRes.ok (some p, asl') =>
      let k1 := { k with asl := asl' }
      let k2 := pcbSet k1 p { pcbGet k1 p with p_semAdd := none }
      let k3 := { k2 with readyQueue := insertProcQ k2.readyQueue p,
                          softBlockCount := k2.softBlockCount - 1 }
      wakeClockLoop k3 fuel

/-- intervalTimerHandler (interrupts.c lines 192-224).  After waking
all pseudo-clock waiters, resetting the clock semaphore, re-arming the
quantum timer and moving endOfInterval forward, the handler LOADS THE
CURRENT PROCESS'S STATE DIRECTLY when one is running (case 1) and only
otherwise calls the scheduler (case 2). -/
def intervalTimerHandler (k : Kernel) (now : Int) : Outcome :=
  match wakeClockLoop k (k.pcbs.length + 1) with
  | CRes.nullDeref => Outcome.nullDeref k
  | CRes.noFuel => Outcome.noFuel
  | CRes.ok k1 =>
    let k2 := { k1 with mem := memSet k1.mem clockAddr 0 }
    let k3 := { k2 with timer := QUANTUM }
    let k4 := { k3 with endOfInterval := now + INTERVAL }
    match k4.currentProc with
    | some _ => Outcome.resume { k4 with startTOD := now }
    | none => Outcome.schedule k4

/-- endOfQuantum (interrupts.c lines 235-245). -/
def endOfQuantum (k : Kernel) : Outcome :=
  match k.currentProc with
  | some p =>
    Outcome.schedule
      { k with readyQueue := insertProcQ k.readyQueue p, currentProc := none }
  | none => Outcome.schedule k

/-- lineTwoHandler (interrupts.c lines 170-180); `now` is getTODLO().
When the interval has passed, intervalTimerHandler runs and never
returns (each of its exits is LDST or scheduler), so endOfQuantum only
executes in the pure quantum-expiry case. -/
def lineTwoHandler (k : Kernel) (now : Int) : Outcome :=
  if now ≥ k.endOfInterval then intervalTimerHandler k now
  else endOfQuantum k

/-! ## Scheduler (scheduler.c lines 43-77) -/

/-- Exit taken by scheduler(): HALT, PANIC, the explicit wait state
(with the setSTATUS value), or dispatch of a new current process via
LDST. -/
inductive SchedResult where
  | halt : SchedResult
  | panic : SchedResult
  | waitState : Kernel → Nat → SchedResult
  | dispatch : Kernel → SchedResult
deriving DecidableEq, Repr

/-- scheduler (scheduler.c lines 43-77); `now` is getTODLO().  In the
wait path the source first RESETS g_endOfInterval to now + INTERVAL
(line 56) and then programs the timer with g_endOfInterval - getTODLO()
(line 57). -/
def scheduler (k : Kernel) (now : Int) : SchedResult :=
  if emptyProcQ k.readyQueue then
    if k.procCount = 0 then SchedResult.halt
    else if k.softBlockCount = 0 then SchedResult.panic
    else
      let statusVal := ALLOFF &&& INTSENABLED ||| SYSMODE
      let k1 := { k with endOfInterval := now + INTERVAL }
      let k2 := { k1 with timer := k1.endOfInterval - now }
      SchedResult.waitState k2 statusVal
  else
    match removeProcQ k.readyQueue with
    | (none, _) => SchedResult.panic
    | (some p, rest) =>
      let k1 := { k with currentProc := some p, readyQueue := rest }
      let k2 :=
        if k1.endOfInterval - now < 0 ∨ k1.endOfInterval - now ≥ QUANTUM then
          { k1 with timer := QUANTUM }
        else
          { k1 with timer := k1.endOfInterval - now }
      SchedResult.dispatch { k2 with startTOD := now }

/-! ## Termination (exceptions.c lines 473-507) -/

/-- depthFirstMurder (exceptions.c lines 473-507), with a fuel bound on
the recursion (the process tree is finite).  Children are killed before
their parent; the three cases then detach the process from `current`,
the ready queue, or its ASL queue.  For a process blocked on an address
inside g_lotOfSemaphores[0..48] only softBlockCount is decremented; for
any other semaphore the counter is incremented instead. -/
def depthFirstMurder : Nat → Kernel → Nat → CRes Kernel
  | 0, _, _ => CRes.noFuel
  | fuel + 1, k, o =>
    if ¬ emptyChildK k o then
      match removeChildK k o with
      | (none, _) => CRes.noFuel
      | (some c, k1) =>
        match depthFirstMurder fuel k1 c with
        | CRes.nullDeref => CRes.nullDeref
        | CRes.noFuel => CRes.noFuel
        | CRes.ok k2 => depthFirstMurder fuel k2 o
    else
      let afterCase : CRes Kernel :=
        if k.currentProc = some o then
          match outChildK k o with
          | CRes.nullDeref => CRes.nullDeref
          | CRes.noFuel => CRes.noFuel
          | CRes.ok (_, k1) => CRes.ok { k1 with currentProc := none }
        else if (pcbGet k o).p_semAdd = none then
          CRes.ok { k with readyQueue := (outProcQ k.readyQueue o).2 }
        else
          let a := (pcbGet k o).p_semAdd.getD 0
          match outBlocked k.asl a o with
          | CRes.nullDeref => CRes.nullDeref
          | CRes.noFuel => CRes.noFuel
          | CRes.ok (_, asl') =>
            let k1 := { k with asl := asl' }
            if SEMBASE ≤ a ∧ a ≤ SEMBASE + LASTSEMINDEX then
              CRes.ok { k1 with softBlockCount := k1.softBlockCount - 1 }
            else
              CRes.ok { k1 with mem := memSet k1.mem a (memGet k1.mem a + 1) }
      match afterCase with
      | CRes.nullDeref => CRes.nullDeref
      | CRes.noFuel => CRes.noFuel
      | CRes.ok k1 =>
        CRes.ok { freePcbK k1 o with procCount := k1.procCount - 1 }

/-- terminateProcess, SYS 2 (exceptions.c lines 279-283). -/
def terminateProcess (k : Kernel) (fuel : Nat) : Outcome :=
  match depthFirstMurder fuel k (k.currentProc.getD 0) with
  | CRes.nullDeref => Outcome.nullDeref k
  | CRes.noFuel => Outcome.noFuel
  | CRes.ok k1 => Outcome.schedule k1

/-! ## Observations used by the claims -/

/-- The (key, blocked queue) pairs reachable from semd_h along s_next. -/
def activeWalk (t : List Semd) : Nat → Option Nat → List (Nat × List Nat)
  | 0, _ => []
  | _, none => []
  | fuel + 1, some i =>
    let nd := t.getD i semd0
    (nd.s_semAdd, nd.s_procQ) :: activeWalk t fuel nd.s_next

/-- The blocked-process queue of the active descriptor with key `a`
([] when no such descriptor is on the ASL). -/
def aslQueueOf (st : Asl) (a : Nat) : List Nat :=
  ((((activeWalk st.table (st.table.length + 1) st.semd_h).find?
      (fun e => e.1 = a)).map Prod.snd).getD [])

/-- Spec section 8, invariant 7: for every device semaphore, either the
counter is ≥ 0 and its blocked queue is empty, or the counter is
negative and its absolute value equals the queue length. -/
def devSemInvariant (k : Kernel) : Prop :=
  ∀ i : Fin 49,
    (0 ≤ memGet k.mem (SEMBASE + i.val) ∧ aslQueueOf k.asl (SEMBASE + i.val) = []) ∨
    (memGet k.mem (SEMBASE + i.val) < 0 ∧
      ((aslQueueOf k.asl (SEMBASE + i.val)).length : Int) = -(memGet k.mem (SEMBASE + i.val)))

instance (k : Kernel) : Decidable (devSemInvariant k) := by
  unfold devSemInvariant
  infer_instance

def schedKernel : SchedResult → Option Kernel
  | SchedResult.waitState k _ => some k
  | SchedResult.dispatch k => some k
  | _ => none

def isWaitState : SchedResult → Bool
  | SchedResult.waitState _ _ => true
  | _ => false

/-! ## Concrete states for the claims -/

def kernel0 : Kernel :=
  { procCount := 0, softBlockCount := 0, startTOD := 0, endTOD := 0,
    accTime := 0, endOfInterval := 0, timer := 0, currentProc := none,
    readyQueue := [], pcbs := [], freePcbs := [], mem := [],
    deviceStatus := List.replicate 49 0,
    asl := { table := [], semd_h := none, semdFree_h := none } }

/-- Line 3-6 overtaken-interrupt state: device semaphore 0 (address
SEMBASE) is at -1 with nobody blocked on it (its waiter was
terminated); a process is blocked on an unrelated user semaphore at
address 2000 so the ASL search terminates; process 0 is running. -/
def exK2 : Kernel :=
  { kernel0 with
    procCount := 2, currentProc := some 0,
    pcbs := [pcb0, pcb0, pcb0, { pcb0 with p_semAdd := some 2000 }],
    mem := [(SEMBASE, -1), (2000, -1)],
    asl := { table := [{ s_next := some 1, s_semAdd := 0, s_procQ := [] },
                       { s_next := none, s_semAdd := 2000, s_procQ := [3] }],
             semd_h := some 0, semdFree_h := none } }

def dev2 : DevReg := { d0 := 0xAB, d1 := 0, d2 := 0, d3 := 0 }

/-- Interval-timer state: process 0 is running, process 1 waits on the
pseudo-clock (address clockAddr = SEMBASE+48), process 2 waits on a
user semaphore at the higher address 2000 (so the broken sentinel chain
still lets the clock search terminate); the interval has expired. -/
def exK3 : Kernel :=
  { kernel0 with
    procCount := 3, softBlockCount := 2, currentProc := some 0,
    endOfInterval := 4,
    pcbs := [pcb0, { pcb0 with p_semAdd := some clockAddr },
             { pcb0 with p_semAdd := some 2000 }],
    mem := [(clockAddr, -1), (2000, -1)],
    asl := { table := [{ s_next := some 1, s_semAdd := 0, s_procQ := [] },
                       { s_next := some 2, s_semAdd := clockAddr, s_procQ := [1] },
                       { s_next := none, s_semAdd := 2000, s_procQ := [2] }],
             semd_h := some 0, semdFree_h := none } }

/-- The kernel state after the wake-everyone loop of the interval-timer
handler has run on exK3 (process 1 woken onto the ready queue). -/
def exK3w : Kernel :=
  match wakeClockLoop exK3 (exK3.pcbs.length + 1) with
  | CRes.ok kk => kk
  | _ => kernel0

/-- CreateProcess state: process 0 is running (its saved state is
committed from the SYS old area before the service runs), one PCB
(index 1) is free. -/
def exK4 : Kernel :=
  { kernel0 with
    procCount := 1, currentProc := some 0,
    pcbs := [pcb0, pcb0], freePcbs := [1] }

/-- The SYS old area for a CreateProcess request: a1 holds the service
number 1, the caller is in SYS mode. -/
def oldSYS4 : MState := { mst0 with a1 := 1, cpsr := SYSMODE }

/-- The state template the caller passed in a2. -/
def template4 : MState := { mst0 with a1 := 42, pc := 777 }

/-- A free-pool PCB carrying values left by its previous owner: a stale
queue link, accumulated cpu time, a stale semaphore address and a
registered exception-handler pair. -/
def exStalePcb : Pcb :=
  { pcb0 with
    p_next := some 7, p_time := 33, p_semAdd := some 1100,
    stateArray := ((some 11, some 12), (none, none), (none, none)) }

/-- Termination state: process 0 is running and has child process 1,
which is blocked on device semaphore 3 (address SEMBASE+3, counter -1). -/
def exK6 : Kernel :=
  { kernel0 with
    procCount := 2, softBlockCount := 1, currentProc := some 0,
    pcbs := [{ pcb0 with p_child := some 1 },
             { pcb0 with p_prnt := some 0, p_semAdd := some (SEMBASE + 3) }],
    mem := [(SEMBASE + 3, -1)],
    asl := { table := [{ s_next := some 1, s_semAdd := 0, s_procQ := [] },
                       { s_next := none, s_semAdd := SEMBASE + 3, s_procQ := [1] }],
             semd_h := some 0, semdFree_h := none } }

/-- The ASL left after outBlocked removes process 1 from the descriptor
of device semaphore 3 in exK6. -/
def exAsl6 : Asl :=
  match outBlocked exK6.asl (SEMBASE + 3) 1 with
  | CRes.ok (_, st) => st
  | _ => exK6.asl

/-- WaitIO-overtaking state: process 0 is running, device semaphore 0
is at its initial value 0, all captured device statuses are 0. -/
def exK7 : Kernel :=
  { kernel0 with procCount := 1, currentProc := some 0, pcbs := [pcb0] }

def dev7 : DevReg := { d0 := 5, d1 := 0, d2 := 0, d3 := 0 }

/-- The kernel state after the line-3 interrupt for device 0 has been
handled on exK7 (before the process issues WaitIO). -/
def exK7after : Kernel :=
  (outKernel (externalDeviceHandler exK7 dev7 0 3 9).1).getD kernel0

/-- Scheduler wait-path state: no ready process, one live process
soft-blocked, with a pseudo-clock tick already scheduled for TOD
50000. -/
def exK8 : Kernel :=
  { kernel0 with procCount := 1, softBlockCount := 1, endOfInterval := 50000 }

/-- Terminal-interrupt state: process 0 is running; all device
semaphores are at 0. -/
def exK9 : Kernel :=
  { kernel0 with procCount := 1, currentProc := some 0, pcbs := [pcb0] }

/-- A terminal receive-status word whose low 8 bits are 0x11 (not the
device-ready code 1) but whose low 4 bits are 1. -/
def dev9 : DevReg := { d0 := 0x11, d1 := 0, d2 := 0, d3 := 0 }

/-- V-with-no-waiter state: a user semaphore at address 2000 holds -2
with no process blocked on it; an unrelated descriptor at address 2100
keeps the ASL search of the broken sentinel chain terminating. -/
def exK10 : Kernel :=
  { kernel0 with
    procCount := 2, currentProc := some 0,
    pcbs := [pcb0, pcb0, pcb0, pcb0, pcb0, { pcb0 with p_semAdd := some 2100 }],
    mem := [(2000, -2), (2100, -1)],
    asl := { table := [{ s_next := some 1, s_semAdd := 0, s_procQ := [] },
                       { s_next := none, s_semAdd := 2100, s_procQ := [5] }],
             semd_h := some 0, semdFree_h := none } }

/-! ## Helper lemmas -/

/-- The wake-everyone loop of the interval-timer handler never changes
which process is current. -/
theorem wakeClockLoop_preservesCurrent :
    ∀ (fuel : Nat) (k k1 : Kernel), wakeClockLoop k fuel = CRes.ok k1 →
      k1.currentProc = k.currentProc := by
  intro fuel
  induction fuel with
  | zero =>
    intro k k1 h
    simp [wakeClockLoop] at h
  | succ n ih =>
    intro k k1 h
    rw [wakeClockLoop] at h
    cases hrb : removeBlocked k.asl clockAddr with
    | nullDeref => rw [hrb] at h; cases h
    | noFuel => rw [hrb] at h; cases h
    | ok pr =>
      obtain ⟨sp, asl'⟩ := pr
      cases sp with
      | none =>
        simp only [hrb] at h
        cases h
        rfl
      | some p =>
        simp only [hrb] at h
        have h2 := ih _ _ h
        exact h2

/-! ## Claim theorems -/

/-- C1: the claim says initASL brackets the ASL with two sentinels
(keys 0 and MAXADDR) so that the predecessor search terminates at a
descriptor with a non-null successor and no ASL operation dereferences
a null successor pointer.  In the source the top sentinel's s_next is
left NULL and the bottom sentinel is never linked in, so after initASL
the predecessor search — and with it insertBlocked, removeBlocked,
outBlocked and headBlocked — dereferences the NULL successor of the top
sentinel for EVERY key. -/
theorem initASL_missing_bottom_sentinel :
    initASL.semd_h = some 21 ∧
    (initASL.node 21).s_next = none ∧
    (initASL.node 20).s_semAdd = 0xFFFFFF ∧
    ∀ semAdd p : Nat,
      findPrevSemd initASL semAdd = CRes.nullDeref ∧
      insertBlocked initASL semAdd p = CRes.nullDeref ∧
      removeBlocked initASL semAdd = CRes.nullDeref ∧
      outBlocked initASL semAdd p = CRes.nullDeref ∧
      headBlocked initASL semAdd = CRes.nullDeref :=
  ⟨rfl, rfl, rfl, fun _ _ => ⟨rfl, rfl, rfl, rfl, rfl⟩⟩

/-- C2: the claim says that for a line 3-6 interrupt whose V leaves the
device semaphore ≤ 0 with no waiter, the handler stores the status into
device_status, still ACKs, and skips the waiter updates without
dereferencing a null waiter pointer.  On the state exK2 (device
semaphore 0 at -1 with no waiter) the handler captures the status and
then dereferences the NULL signaled-process pointer; the device's
command register is never written (no ACK). -/
theorem extDev_no_waiter_null_deref :
    isNullDerefO (externalDeviceHandler exK2 dev2 0 3 7).1 = true ∧
    (outKernel (externalDeviceHandler exK2 dev2 0 3 7).1).map
      (fun kk => kk.deviceStatus.getD 0 0) = some dev2.d0 ∧
    (externalDeviceHandler exK2 dev2 0 3 7).2 = dev2 ∧
    dev2.d1 ≠ ACK := by
  decide

/-- C3 counterexample: the claim says that on an expired interval the
line-2 handler, after waking the pseudo-clock waiters, falls through to
quantum-end behaviour (current enqueued on the ready queue, current
cleared, scheduler invoked).  On exK3 (process 0 running, process 1 on
the pseudo-clock, interval expired) the handler instead resumes process
0 directly: the outcome is a LDST of current, the scheduler is not
invoked, current is still process 0, and the ready queue holds only the
woken clock waiter. -/
theorem intervalTimer_resumes_current_ctrex :
    isResume (lineTwoHandler exK3 5) = true ∧
    isSchedule (lineTwoHandler exK3 5) = false ∧
    (outKernel (lineTwoHandler exK3 5)).map
      (fun kk => (kk.currentProc, kk.readyQueue)) = some (some 0, [1]) := by
  decide

/-- C3 amended: when a line-2 interrupt arrives with the time of day at
or past end_of_interval, the handler wakes all pseudo-clock waiters,
resets the clock semaphore, re-arms the timer and resets
end_of_interval; then, if a process is current, it resets the
accounting clock and RESUMES that process directly — current is not
enqueued, not cleared, and the scheduler is not invoked. -/
theorem intervalTimer_direct_resume (k : Kernel) (now : Int) (p : Nat) (k1 : Kernel)
    (hc : k.currentProc = some p)
    (ht : now ≥ k.endOfInterval)
    (hw : wakeClockLoop k (k.pcbs.length + 1) = CRes.ok k1) :
    lineTwoHandler k now =
      Outcome.resume
        { k1 with mem := memSet k1.mem clockAddr 0, timer := QUANTUM,
                  endOfInterval := now + INTERVAL, startTOD := now } := by
  have hc1 : k1.currentProc = some p :=
    (wakeClockLoop_preservesCurrent _ _ _ hw).trans hc
  rw [lineTwoHandler, if_pos ht]
  rw [intervalTimerHandler, hw]
  simp only [hc1]

/-- C3 witness: the amended theorem applied to the concrete state
exK3 at time 5. -/
theorem intervalTimer_direct_resume_witness :
    lineTwoHandler exK3 5 =
      Outcome.resume
        { exK3w with mem := memSet exK3w.mem clockAddr 0, timer := QUANTUM,
                     endOfInterval := 5 + INTERVAL, startTOD := 5 } :=
  intervalTimer_direct_resume exK3 5 0 exK3w rfl (by decide) rfl

/-- C4: the claim says the caller of CreateProcess resumes with its a1
holding 0 on success and -1 on pool exhaustion.  In the source the
status is written into the a1 field of the state template addressed by
the caller's a2 (`parentState->a1`), while the caller's own saved a1 —
committed from the SYS old area, hence still the service number 1 — is
what loadState restores: on exK4 the resumed caller's a1 is 1 in both
the success and the exhaustion case, the template's a1 becomes 0
(resp. the unsigned image of -1), and the child inherits the template's
original a1 = 42. -/
theorem createProcess_status_not_in_caller_a1 :
    (createProcess (sysCallStateCommit exK4 oldSYS4) template4).2.a1 = SUCCESS ∧
    (outKernel (createProcess (sysCallStateCommit exK4 oldSYS4) template4).1).map
      (fun kk => ((pcbGet kk 0).p_s.a1, (pcbGet kk 1).p_s.a1, kk.readyQueue)) =
      some (1, 42, [1]) ∧
    (createProcess { sysCallStateCommit exK4 oldSYS4 with freePcbs := [] } template4).2.a1 =
      FAILUREWORD ∧
    (outKernel (createProcess { sysCallStateCommit exK4 oldSYS4 with freePcbs := [] }
        template4).1).map (fun kk => (pcbGet kk 0).p_s.a1) = some 1 := by
  decide

/-- C5: the claim says every successful allocPcb returns a PCB with all
fields cleared (links null, cpu_time 0, sem_addr null, the three
exception-handler slots null), and null exactly on an empty pool.  The
source clears only the six links and p_time: allocating exStalePcb
yields p_semAdd still 1100 and the handler slot pair (11,12) still
registered, while the empty-pool case does return null. -/
theorem allocPcb_stale_fields :
    (allocPcb [exStalePcb]).map (fun pr => pr.1.p_semAdd) = some (some 1100) ∧
    (allocPcb [exStalePcb]).map (fun pr => pr.1.stateArray) =
      some ((some 11, some 12), (none, none), (none, none)) ∧
    (allocPcb [exStalePcb]).map (fun pr => pr.1.p_next) = some none ∧
    (allocPcb [exStalePcb]).map (fun pr => pr.1.p_prev) = some none ∧
    (allocPcb [exStalePcb]).map (fun pr => pr.1.p_prnt) = some none ∧
    (allocPcb [exStalePcb]).map (fun pr => pr.1.p_child) = some none ∧
    (allocPcb [exStalePcb]).map (fun pr => pr.1.p_nextSib) = some none ∧
    (allocPcb [exStalePcb]).map (fun pr => pr.1.p_prevSib) = some none ∧
    (allocPcb [exStalePcb]).map (fun pr => pr.1.p_time) = some 0 ∧
    allocPcb ([] : List Pcb) = none := by
  decide

/-- C6 counterexample: the claim says the device-semaphore invariant
(counter ≥ 0 with empty queue, or counter < 0 with |counter| waiters)
holds after every handler return, in particular across termination of a
process blocked on a device semaphore.  On exK6 the invariant holds,
process 1 is blocked on device semaphore 3 (counter -1), and after
TerminateProcess kills the tree the counter is still -1 with an empty
queue: the invariant is violated. -/
theorem terminate_breaks_device_sem_invariant :
    devSemInvariant exK6 ∧
    (outKernel (terminateProcess exK6 5)).map
      (fun kk => (decide (devSemInvariant kk), memGet kk.mem (SEMBASE + 3),
                  aslQueueOf kk.asl (SEMBASE + 3))) =
      some (false, -1, []) := by
  decide

/-- C6 amended: terminating a process blocked on a device semaphore
does NOT preserve the invariant: depthFirstMurder removes the waiter
from the semaphore's queue and decrements soft_block_count but leaves
the device semaphore's counter unchanged (it increments only non-device
semaphores), so the semaphore is left with a negative counter and a
queue shorter than its absolute value until the pending interrupt's V
arrives. -/
theorem dfm_device_waiter_counter_unchanged (fuel : Nat) (k : Kernel) (o a : Nat)
    (r : Option Nat) (asl' : Asl)
    (hch : (pcbGet k o).p_child = none)
    (hcur : ¬ k.currentProc = some o)
    (hsem : (pcbGet k o).p_semAdd = some a)
    (hdev : SEMBASE ≤ a ∧ a ≤ SEMBASE + LASTSEMINDEX)
    (hout : outBlocked k.asl a o = CRes.ok (r, asl')) :
    depthFirstMurder (fuel + 1) k o =
      CRes.ok { k with asl := asl', softBlockCount := k.softBlockCount - 1,
                       freePcbs := insertProcQ k.freePcbs o,
                       procCount := k.procCount - 1 } := by
  rw [depthFirstMurder]
  simp [emptyChildK, hch, hsem, hout, hcur, hdev.1, hdev.2, freePcbK, insertProcQ]

/-- C6 witness: the amended theorem applied to the concrete state exK6,
terminating the blocked child process 1. -/
theorem dfm_device_waiter_counter_unchanged_witness :
    depthFirstMurder 4 exK6 1 =
      CRes.ok { exK6 with asl := exAsl6, softBlockCount := exK6.softBlockCount - 1,
                          freePcbs := insertProcQ exK6.freePcbs 1,
                          procCount := exK6.procCount - 1 } :=
  dfm_device_waiter_counter_unchanged 3 exK6 1 (SEMBASE + 3) (some 1) exAsl6
    rfl (by decide) rfl (by decide) rfl

/-- C7: the claim says that when a device interrupt is handled before
the matching WaitIO, the WaitIO does not block, leaves soft_block_count
unchanged, and returns in a1 the status captured when the interrupt was
handled.  On exK7 (semaphore at its initial 0, device status word 5) the
V result is 1 > 0, so the interrupt handler skips the whole waiter
block: nothing is captured into device_status and the device is not
ACKed; the later WaitIO indeed does not block and leaves
soft_block_count at 0, but its a1 is the stale device_status value 0,
not the device's status word 5. -/
theorem overtaking_returns_stale_status :
    isResume (externalDeviceHandler exK7 dev7 0 3 9).1 = true ∧
    (externalDeviceHandler exK7 dev7 0 3 9).2 = dev7 ∧
    exK7after.deviceStatus = List.replicate 49 0 ∧
    memGet exK7after.mem SEMBASE = 1 ∧
    isResume (waitIOSvc exK7after 9 3 0 true) = true ∧
    (outKernel (waitIOSvc exK7after 9 3 0 true)).map
      (fun kk => ((pcbGet kk 0).p_s.a1, kk.softBlockCount)) = some (0, 0) ∧
    dev7.d0 = 5 := by
  decide

/-- C8 counterexample: the claim says the scheduler's wait-state path
programs the timer to fire at the ALREADY-SCHEDULED end_of_interval.
On exK8 (end_of_interval = 50000, now = 0) the wait path instead resets
end_of_interval to 100000 and programs the timer with 100000: the
pending pseudo-clock tick is pushed from TOD 50000 to TOD 100000. -/
theorem scheduler_wait_pushes_interval_ctrex :
    exK8.endOfInterval = 50000 ∧
    isWaitState (scheduler exK8 0) = true ∧
    (schedKernel (scheduler exK8 0)).map
      (fun kk => (kk.endOfInterval, kk.timer)) = some (100000, 100000) := by
  decide

/-- C8 amended: in the wait-state path (ready queue empty, live
processes, soft-blocked processes) the scheduler enables interrupts
(setSTATUS value with the I and F bits clear) and RE-SCHEDULES the
pseudo-clock tick: it first sets end_of_interval := now + INTERVAL and
then programs the timer with end_of_interval - now = INTERVAL, so the
pending tick is moved to a full interval from now rather than kept at
its original absolute time. -/
theorem scheduler_wait_resets_interval (k : Kernel) (now : Int)
    (hq : k.readyQueue = [])
    (hp : ¬ k.procCount = 0)
    (hs : ¬ k.softBlockCount = 0) :
    scheduler k now =
      SchedResult.waitState
        { k with endOfInterval := now + INTERVAL, timer := INTERVAL }
        (ALLOFF &&& INTSENABLED ||| SYSMODE) := by
  simp only [scheduler, hq, emptyProcQ, List.isEmpty_nil, if_true, hp, hs,
    if_neg, ite_false, ite_true]
  have harith : now + INTERVAL - now = INTERVAL := by ring
  simp only [harith]

/-- C8 witness: the amended theorem applied to the concrete state exK8
at time 0. -/
theorem scheduler_wait_resets_interval_witness :
    scheduler exK8 0 =
      SchedResult.waitState
        { exK8 with endOfInterval := 0 + INTERVAL, timer := INTERVAL }
        (ALLOFF &&& INTSENABLED ||| SYSMODE) :=
  scheduler_wait_resets_interval exK8 0 rfl (by decide) (by decide)

/-- C9: the claim says a line-7 interrupt is classified as transmit
exactly when the LOW 8 BITS of the receive-status register equal the
device-ready code.  The source masks with ISOLATEREADY = 0xF, i.e. the
low 4 bits: for receive-status 0x11 the code classifies transmit (and
Vs the transmit subdevice semaphore at index + 8) although the low 8
bits are 0x11 ≠ 1, so the spec-side condition classifies receive. -/
theorem terminal_transmit_mask_four_bits :
    termIsTransmit 0x11 = true ∧
    termIsTransmitSpec 0x11 = false ∧
    (outKernel (externalDeviceHandler exK9 dev9 0 7 3).1).map
      (fun kk => (memGet kk.mem (SEMBASE + TOTALDEVICES), memGet kk.mem SEMBASE)) =
      some (1, 0) := by
  decide

/-- C10: if V (SYS 3) leaves the semaphore ≤ 0 but removeBlocked finds
no descriptor for it on the ASL (no process is blocked on that
semaphore), verhogen calls PANIC() instead of resuming the calling
process. -/
theorem verhogen_no_waiter_panics (k : Kernel) (semAdd : Nat) (asl' : Asl)
    (hv : memGet k.mem semAdd + 1 ≤ 0)
    (hrb : removeBlocked k.asl semAdd = CRes.ok (none, asl')) :
    verhogen k semAdd = Outcome.panic := by
  simp only [verhogen]
  rw [if_pos hv]
  simp only [hrb]

/-- C10 witness: the theorem applied to the concrete state exK10, whose
user semaphore at address 2000 holds -2 with no blocked process. -/
theorem verhogen_no_waiter_panics_witness :
    verhogen exK10 2000 = Outcome.panic :=
  verhogen_no_waiter_panics exK10 2000 exK10.asl (by decide) (by decide)

end JaeOS
